import Mathlib

/-!
Verification development for the `rpi-director` LED coordination system.

The definitions below are a shallow embedding of the Python sources:
`rpi_director/gpio.py`, `rpi_director/mqtt.py`, `rpi_director/base.py`,
`rpi_director/server.py`, `rpi_director/client.py`.  Pure functions become
Lean functions, stateful methods become explicit state-passing functions,
wall-clock timestamps become rationals, and the set of MQTT messages a call
hands to the transport becomes an explicit output list.
-/

set_option maxHeartbeats 1000000

/-- Pointwise update of a string-keyed map, modelling `d[k] = v` on a Python
dict that is represented as a total function. -/
def updMap {α : Type} (f : String → α) (k : String) (v : α) : String → α :=
  fun c => if c = k then v else f c

/-! ## Digital I/O manager (`gpio.py`, class `GPIOManager`) -/

/-- State owned by `GPIOManager` that `set_led` touches: the configured
`led_pins` mapping (dict name → BCM pin) and the `led_states` cache.
`led_states.get(color, None)` is modelled by an `Option Bool`-valued map. -/
structure GPIOState where
  led_pins : List (String × Nat)
  led_states : String → Option Bool

/-- `GPIOManager.set_led(color, state)` (gpio.py lines 191-212).  Returns the
new state, the `changed` boolean the method returns, and the list of hardware
writes (`GPIO.output(pin, level)` calls) it performed. -/
def set_led (g : GPIOState) (color : String) (state : Bool) :
    GPIOState × Bool × List (Nat × Bool) :=
  match g.led_pins.lookup color with
  | some pin =>
      if g.led_states color = some state then
        (g, false, [])
      else
        ({ g with led_states := updMap g.led_states color (some state) },
         true, [(pin, state)])
  | none => (g, false, [])

/-- `GPIOManager.get_led_state(color)`: `self.led_states.get(color, False)`. -/
def get_led_state (g : GPIOState) (color : String) : Bool :=
  (g.led_states color).getD false

/-! ## Button debounce (`gpio.py`, `_button_callback` and
`monitor_buttons_polling`) -/

/-- The 200 ms software debounce interval used by both detection paths. -/
def DEBOUNCE : ℚ := 0.2

/-- Button-related state of `GPIOManager`: `last_button_press` (per-colour
timestamp of the last accepted press) and `button_states` (last sampled pin
level, `true` = HIGH = not pressed under the active-low convention). -/
structure ButtonState where
  last_button_press : String → ℚ
  button_states : String → Bool

/-- `GPIOManager._button_callback(color)` at wall-clock time `t`
(gpio.py lines 219-236): debounce, record, and fire the callback.  The fired
event is returned as `some (color, t)`. -/
def button_callback (s : ButtonState) (color : String) (t : ℚ) :
    ButtonState × Option (String × ℚ) :=
  if t - s.last_button_press color < DEBOUNCE then
    (s, none)
  else
    ({ s with last_button_press := updMap s.last_button_press color t },
     some (color, t))

/-- One polling-loop visit of one pin in `monitor_buttons_polling`
(gpio.py lines 259-283): sample `level` at time `t`, detect a HIGH→LOW edge
against the stored `button_states`, apply the shared debounce, always store
the new sample. -/
def poll_visit (s : ButtonState) (color : String) (t : ℚ) (level : Bool) :
    ButtonState × Option (String × ℚ) :=
  let previous := s.button_states color
  if previous == true && level == false then
    if DEBOUNCE ≤ t - s.last_button_press color then
      ({ last_button_press := updMap s.last_button_press color t,
         button_states := updMap s.button_states color level },
       some (color, t))
    else
      ({ s with button_states := updMap s.button_states color level }, none)
  else
    ({ s with button_states := updMap s.button_states color level }, none)

/-- A detected edge reaching the debounce gate: either the interrupt callback
fires, or the polling loop samples a pin level. -/
inductive EdgeEvent where
  | interrupt (color : String) (t : ℚ)
  | pollSample (color : String) (t : ℚ) (level : Bool)

/-- Dispatch one edge event to the detection path it arrived on. -/
def stepEdge (s : ButtonState) : EdgeEvent → ButtonState × Option (String × ℚ)
  | .interrupt color t => button_callback s color t
  | .pollSample color t level => poll_visit s color t level

/-- Run a sequence of edge events, collecting the accepted button events
(the invocations of `button_press_callback`). -/
def runEdges (s : ButtonState) : List EdgeEvent → List (String × ℚ)
  | [] => []
  | e :: es =>
      match stepEdge s e with
      | (s', some ev) => ev :: runEdges s' es
      | (s', none) => runEdges s' es

/-- The accepted events for one logical button out of a run. -/
def acceptedFor (color : String) (s : ButtonState) (es : List EdgeEvent) :
    List (String × ℚ) :=
  (runEdges s es).filter (fun p => p.1 == color)

/-! ## String helpers for topic construction (`base.py` line 80-82) -/

/-- Decidable list-prefix test on character lists (used to model Python's
`str.startswith`). -/
def isPreList : List Char → List Char → Bool
  | [], _ => true
  | _ :: _, [] => false
  | p :: ps, c :: cs => p == c && isPreList ps cs

/-- Does `pat` occur as a contiguous sublist anywhere in `s`? -/
def occursList (pat : List Char) : List Char → Bool
  | [] => isPreList pat []
  | c :: cs => isPreList pat (c :: cs) || occursList pat cs

/-- Fuel-driven worker for `removeOccList`; one unit of fuel is spent per
character position inspected, so `s.length` fuel always suffices. -/
def removeOccAux (pat : List Char) : Nat → List Char → List Char
  | 0, _ => []
  | _ + 1, [] => []
  | n + 1, c :: cs =>
      if isPreList pat (c :: cs) then
        removeOccAux pat n (List.drop (pat.length - 1) cs)
      else
        c :: removeOccAux pat n cs

/-- Remove every (left-to-right, non-overlapping) occurrence of `pat` from
`s`, modelling Python's `s.replace(pat, "")` for a non-empty pattern. -/
def removeOccList (pat : List Char) (s : List Char) : List Char :=
  removeOccAux pat s.length s

/-- The `"yellow_"` tag marking the server's per-client yellow LEDs. -/
def yellowTag : List Char := "yellow_".data

/-- `color.startswith("yellow_")`. -/
def startsYellow (color : String) : Bool := isPreList yellowTag color.data

/-- `color.replace("yellow_", "")`. -/
def stripYellow (color : String) : String := ⟨removeOccList yellowTag color.data⟩

/-! ## MQTT topics (`base.py`, `server.py`, `client.py`) -/

/-- `_publish_led_state` topic for server mode (base.py lines 79-84):
per-client yellow LEDs go to `led-director/server/state/leds/yellow/<id>`,
other LEDs to `led-director/server/state/leds/<color>`. -/
def server_led_state_topic (color : String) : String :=
  if startsYellow color then
    "led-director/server/state/leds/yellow/" ++ stripYellow color
  else
    "led-director/server/state/leds/" ++ color

/-- `_publish_led_state` topic for client mode (base.py line 86). -/
def client_led_state_topic (client_id color : String) : String :=
  "led-director/client/" ++ client_id ++ "/state/leds/" ++ color

/-- `handle_button_press` event topic, server mode (base.py line 103). -/
def server_button_event_topic (color : String) : String :=
  "led-director/server/event/buttons/" ++ color

/-- `handle_button_press` event topic, client mode (base.py line 105). -/
def client_button_event_topic (client_id color : String) : String :=
  "led-director/client/" ++ client_id ++ "/event/buttons/" ++ color

/-- Yellow LED command topic used by `handle_client_yellow_press`
(server.py line 105). -/
def client_cmd_yellow_topic (client_id : String) : String :=
  "led-director/client/" ++ client_id ++ "/cmd/leds/yellow"

/-- Per-client topic used by `broadcast_to_clients` (server.py line 358),
with `subtopic` such as `"cmd/leds/red"`. -/
def broadcast_topic (client_id subtopic : String) : String :=
  "led-director/client/" ++ client_id ++ "/" ++ subtopic

/-- Heartbeat topic used by `_heartbeat_worker` (client.py line 89). -/
def client_heartbeat_topic (client_id : String) : String :=
  "led-director/client/" ++ client_id ++ "/heartbeat"

/-- Topic patterns subscribed by `LEDDirectorServer.setup_mqtt_subscriptions`
(server.py lines 46-48). -/
def server_subscriptions : List String :=
  ["led-director/client/+/event/buttons/yellow",
   "led-director/client/+/heartbeat"]

/-- Topic pattern subscribed by `LEDDirectorClient.setup_mqtt_subscriptions`
(client.py line 37). -/
def client_subscriptions (client_id : String) : List String :=
  ["led-director/client/" ++ client_id ++ "/cmd/leds/+"]

/-- A topic is rooted at the `led-director/` namespace. -/
def ledDirectorRooted (t : String) : Prop :=
  isPreList "led-director/".data t.data = true

/-! ## MQTT messages and the coordinator base (`base.py`) -/

/-- One call to `MQTTManager.publish` as issued by the coordinator: the led
`color` it concerns (the loop variable / argument at the call site, `""` for
non-LED messages), the topic, the boolean `state` field of the payload, and
the retain flag. -/
structure PubMsg where
  color : String
  topic : String
  state : Bool
  retain : Bool
deriving DecidableEq, Repr

/-- Role of a node, the `mode` attribute of `LEDDirectorBase`
(`"server"` or `"client"`). -/
inductive Role where
  | server
  | client
deriving DecidableEq, Repr

/-- `LEDDirectorBase._publish_led_state(color, state)` (base.py 77-89):
choose the role-specific topic and publish the payload retained at QoS 1. -/
def publish_led_state (role : Role) (client_id color : String) (state : Bool) :
    PubMsg :=
  { color := color
    topic := match role with
      | .server => server_led_state_topic color
      | .client => client_led_state_topic client_id color
    state := state
    retain := true }

/-- `LEDDirectorBase.republish_led_states` (base.py 70-75): for every
configured LED, read the cached state and publish it retained. -/
def republish_led_states (role : Role) (client_id : String) (g : GPIOState) :
    List PubMsg :=
  g.led_pins.map fun p =>
    publish_led_state role client_id p.1 (get_led_state g p.1)

/-- An action of `on_mqtt_connected` as seen by the MQTT manager: a
subscription or a publish. -/
inductive ConnAction where
  | sub (topicPattern : String)
  | pub (m : PubMsg)
deriving DecidableEq, Repr

/-- The role-specific `setup_mqtt_subscriptions` override. -/
def setup_mqtt_subscriptions (role : Role) (client_id : String) : List String :=
  match role with
  | .server => server_subscriptions
  | .client => client_subscriptions client_id

/-- `LEDDirectorBase.on_mqtt_connected` (base.py 64-68): re-issue the
role-specific subscriptions, then republish every cached LED state. -/
def on_mqtt_connected (role : Role) (client_id : String) (g : GPIOState) :
    List ConnAction :=
  (setup_mqtt_subscriptions role client_id).map ConnAction.sub ++
    (republish_led_states role client_id g).map ConnAction.pub

/-- `LEDDirectorBase.set_led(color, state, publish_state)` (base.py 91-97):
write through the GPIO manager; publish the retained state message only if a
physical change occurred and publishing was requested.  Returns the new GPIO
state, the hardware writes, and the published messages. -/
def base_set_led (role : Role) (client_id : String) (g : GPIOState)
    (color : String) (state : Bool) (publish_state : Bool) :
    GPIOState × List (Nat × Bool) × List PubMsg :=
  let r := set_led g color state
  (r.1, r.2.2,
   if r.2.1 && publish_state then
     [publish_led_state role client_id color state]
   else [])

/-! ## Server coordinator (`server.py`, class `LEDDirectorServer`) -/

/-- Flood-protection cooldown `BUTTON_COOLDOWN = 0.3` (server.py line 27). -/
def BUTTON_COOLDOWN : ℚ := 0.3

/-- Presence timeout `CLIENT_TIMEOUT = 12.0` (server.py line 31). -/
def CLIENT_TIMEOUT : ℚ := 12.0

/-- Python dict assignment `d[k] = v` on an association list: replace the
existing binding or append a fresh one. -/
def updAssoc (l : List (String × ℚ)) (k : String) (v : ℚ) :
    List (String × ℚ) :=
  match l with
  | [] => [(k, v)]
  | (k', v') :: t => if k' = k then (k, v) :: t else (k', v') :: updAssoc t k v

/-- State of `LEDDirectorServer`.  `client_yellow_states` and
`client_last_press` are dicts keyed exactly by `settings.clients_list`
(initialised in `__init__`, server.py lines 24-26, and only ever written at
existing keys), so they are modelled as total maps with `clients_list`
recording the key set used by the `in` test. -/
structure ServerState where
  gpio : GPIOState
  clients_list : List String
  current_mode : String
  client_yellow_states : String → Bool
  client_last_press : String → ℚ
  connected_clients : List (String × ℚ)

/-- `LEDDirectorServer.handle_client_yellow_press(client_id)` at time `now`
(server.py lines 73-111).  Returns the new state, the hardware writes, and
the MQTT messages published during the call. -/
def handle_client_yellow_press (s : ServerState) (client_id : String)
    (now : ℚ) : ServerState × List (Nat × Bool) × List PubMsg :=
  if client_id ∉ s.clients_list then
    (s, [], [])
  else if now - s.client_last_press client_id < BUTTON_COOLDOWN then
    (s, [], [])
  else
    let s1 := { s with
      client_last_press := updMap s.client_last_press client_id now }
    if s1.current_mode = "red_active" then
      let current_state := s1.client_yellow_states client_id
      let new_state := !current_state
      let s2 := { s1 with
        client_yellow_states :=
          updMap s1.client_yellow_states client_id new_state }
      let yellow_led_name := "yellow_" ++ client_id
      let r :=
        if (s2.gpio.led_pins.lookup yellow_led_name).isSome then
          base_set_led .server "server" s2.gpio yellow_led_name new_state true
        else
          (s2.gpio, [], [])
      let s3 := { s2 with gpio := r.1 }
      let cmd : PubMsg :=
        { color := "yellow"
          topic := client_cmd_yellow_topic client_id
          state := new_state
          retain := false }
      (s3, r.2.1, r.2.2 ++ [cmd])
    else
      (s1, [], [])

/-- `LEDDirectorServer.handle_client_heartbeat(client_id, payload)` at time
`now` (server.py lines 113-125): unconditionally records the heartbeat in
`connected_clients`; logs, publishes nothing. -/
def handle_client_heartbeat (s : ServerState) (client_id : String) (now : ℚ) :
    ServerState × List PubMsg :=
  ({ s with connected_clients := updAssoc s.connected_clients client_id now },
   [])

/-- `LEDDirectorServer.is_client_connected(client_id)` at time `now`
(server.py lines 127-134). -/
def is_client_connected (s : ServerState) (client_id : String) (now : ℚ) :
    Bool :=
  match s.connected_clients.lookup client_id with
  | none => false
  | some last_seen => decide (now - last_seen ≤ CLIENT_TIMEOUT)

/-! ## MQTT manager (`mqtt.py`, class `MQTTManager`) -/

/-- Connection flags of `MQTTManager`: its own `mqtt_connected` attribute and
what `self.mqtt_client.is_connected()` reports. -/
structure MQTTState where
  mqtt_connected : Bool
  transport_connected : Bool

/-- `MQTTManager.is_connected` (mqtt.py lines 210-212). -/
def mqtt_is_connected (m : MQTTState) : Bool :=
  m.mqtt_connected && m.transport_connected

/-- `MQTTManager.publish(topic, payload, retain, qos)` (mqtt.py 178-204).
The fallible library calls are passed in as oracles: `sendResult` is the
outcome of `json.dumps` + `client.publish` + `wait_for_publish` (guarded by
the first `try`/`except`), `reconnectResult` the outcome of
`client.reconnect()` (guarded by the second).  The result is the new manager
state and the list of topics actually handed to the transport; an uncaught
exception would surface as `.error`. -/
def mqtt_publish (m : MQTTState) (topic : String)
    (sendResult reconnectResult : Except String Unit) :
    Except String (MQTTState × List String) :=
  if m.mqtt_connected && m.transport_connected then
    match sendResult with
    | .ok _ => .ok (m, [topic])
    | .error _ => .ok (m, [])
  else
    if m.mqtt_connected && !m.transport_connected then
      match reconnectResult with
      | .ok _ => .ok (m, [])
      | .error _ => .ok ({ m with mqtt_connected := false }, [])
    else
      .ok (m, [])

/-! ## Shutdown path (`server.py` 288-292, `client.py` 145-150,
`base.py` 127-145) -/

/-- Teardown steps observable during shutdown/cleanup. -/
inductive TeardownAct where
  | stopStatusMonitoring
  | stopHeartbeat
  | stopMqttStatusMonitoring
  | mqttDisconnect
  | gpioCleanup
deriving DecidableEq, Repr

/-- A Python runtime error surfaced by attribute dispatch. -/
inductive PyErr where
  | attributeError
deriving DecidableEq, Repr

/-- The methods defined on `LEDDirectorBase` (base.py lines 35-192). -/
def base_class_methods : List String :=
  ["__init__", "on_mqtt_connected", "republish_led_states",
   "_publish_led_state", "set_led", "handle_button_press",
   "setup_mqtt_subscriptions", "handle_mqtt_message", "process_button_press",
   "cleanup", "run"]

/-- `LEDDirectorBase.cleanup` teardown steps (base.py 127-145): join the
button thread, then disconnect MQTT and clean up GPIO. -/
def base_cleanup_acts : List TeardownAct :=
  [.mqttDisconnect, .gpioCleanup]

/-- `super().shutdown()` as dispatched from either subclass: look the method
up on the base class; a missing attribute raises `AttributeError`. -/
def super_shutdown : Except PyErr (List TeardownAct) :=
  if base_class_methods.contains "shutdown" then .ok [] else
    .error .attributeError

/-- `LEDDirectorServer.shutdown` (server.py 288-292): stop the status
monitors, then call `super().shutdown()`.  Returns the teardown steps that
ran and the call's outcome. -/
def server_shutdown : List TeardownAct × Except PyErr Unit :=
  match super_shutdown with
  | .ok acts => ([.stopStatusMonitoring] ++ acts, .ok ())
  | .error e => ([.stopStatusMonitoring], .error e)

/-- `LEDDirectorClient.shutdown` (client.py 145-150): stop the heartbeat and
MQTT status threads, then call `super().shutdown()`. -/
def client_shutdown : List TeardownAct × Except PyErr Unit :=
  match super_shutdown with
  | .ok acts => ([.stopHeartbeat, .stopMqttStatusMonitoring] ++ acts, .ok ())
  | .error e => ([.stopHeartbeat, .stopMqttStatusMonitoring], .error e)

/-- A small concrete idle-mode server used by closed witnesses. -/
def exampleServerIdle : ServerState :=
  { gpio := ⟨[("red", 5)], fun _ => some false⟩,
    clients_list := ["client1"],
    current_mode := "idle",
    client_yellow_states := fun _ => false,
    client_last_press := fun _ => 0,
    connected_clients := [] }

/-- A small concrete red-active server (one client, its yellow LED on pin 22,
everything off) used by closed witnesses. -/
def exampleServerRed : ServerState :=
  { gpio := ⟨[("yellow_client1", 22)], fun _ => some false⟩,
    clients_list := ["client1"],
    current_mode := "red_active",
    client_yellow_states := fun _ => false,
    client_last_press := fun _ => 0,
    connected_clients := [] }

/-- A small concrete server LED configuration (red on, others off) used by
closed witnesses. -/
def exampleGpio : GPIOState :=
  { led_pins := [("red", 1), ("green", 2), ("yellow_client1", 3)],
    led_states := fun c => if c = "red" then some true else some false }

/-! ## Theorems -/

/-- Looking up the key just written by `updAssoc` yields the written value. -/
theorem lookup_updAssoc_self (l : List (String × ℚ)) (k : String) (v : ℚ) :
    (updAssoc l k v).lookup k = some v := by
  induction l with
  | nil => simp [updAssoc, List.lookup]
  | cons p t ih =>
      obtain ⟨k', v'⟩ := p
      by_cases h : k' = k
      · subst h
        simp [updAssoc, List.lookup]
      · simp only [updAssoc, if_neg h, List.lookup]
        have hbeq : (k == k') = false := by
          simpa [beq_iff_eq] using fun hk => h hk.symm
        simp [hbeq, ih]

/-- C10: calling the public `shutdown()` on either coordinator stops its
monitoring/heartbeat threads and then raises `AttributeError` from
`super().shutdown()`, because `LEDDirectorBase` defines `cleanup()` but no
`shutdown()`; the MQTT-disconnect and GPIO-cleanup steps (which live in
`cleanup`) are never reached on this path. -/
theorem shutdown_raises_attribute_error :
    server_shutdown =
      ([TeardownAct.stopStatusMonitoring], Except.error PyErr.attributeError) ∧
    client_shutdown =
      ([TeardownAct.stopHeartbeat, TeardownAct.stopMqttStatusMonitoring],
       Except.error PyErr.attributeError) ∧
    TeardownAct.mqttDisconnect ∉ server_shutdown.1 ∧
    TeardownAct.gpioCleanup ∉ server_shutdown.1 ∧
    TeardownAct.mqttDisconnect ∉ client_shutdown.1 ∧
    TeardownAct.gpioCleanup ∉ client_shutdown.1 ∧
    TeardownAct.mqttDisconnect ∈ base_cleanup_acts ∧
    TeardownAct.gpioCleanup ∈ base_cleanup_acts :=
  ⟨rfl, rfl, by decide, by decide, by decide, by decide, by decide, by decide⟩

/-- C9: a peer is reported connected iff the presence table holds a heartbeat
timestamp within the timeout; a peer whose last heartbeat is older than the
timeout is reported not connected; and a heartbeat arriving at time `t2`
immediately makes the peer reported connected at `t2`. -/
theorem is_client_connected_spec (s : ServerState) (client_id : String)
    (now : ℚ) :
    (is_client_connected s client_id now = true ↔
      ∃ t, s.connected_clients.lookup client_id = some t ∧
        now - t ≤ CLIENT_TIMEOUT) ∧
    (∀ t, s.connected_clients.lookup client_id = some t →
      CLIENT_TIMEOUT < now - t →
      is_client_connected s client_id now = false) ∧
    (∀ t2, is_client_connected
        (handle_client_heartbeat s client_id t2).1 client_id t2 = true) := by
  refine ⟨?_, ?_, ?_⟩
  · unfold is_client_connected
    cases h : s.connected_clients.lookup client_id with
    | none => simp [h]
    | some t => simp [h]
  · intro t ht hgt
    unfold is_client_connected
    rw [ht]
    simpa using not_le.mpr hgt
  · intro t2
    unfold is_client_connected
    simp only [handle_client_heartbeat]
    rw [lookup_updAssoc_self]
    have : t2 - t2 ≤ CLIENT_TIMEOUT := by
      simp [CLIENT_TIMEOUT]
      norm_num
    simpa using this

/-- Closed witness for `is_client_connected_spec`: with a heartbeat recorded
at time 5, the peer is connected at time 10, not connected at time 20, and
connected again right after a fresh heartbeat at time 20. -/
theorem is_client_connected_spec_witness :
    (({ gpio := ⟨[], fun _ => none⟩, clients_list := ["client1"],
        current_mode := "idle", client_yellow_states := fun _ => false,
        client_last_press := fun _ => 0,
        connected_clients := [("client1", 5)] } : ServerState).connected_clients.lookup
          "client1" = some 5 ∧ CLIENT_TIMEOUT < (20 : ℚ) - 5) ∧
    is_client_connected
      { gpio := ⟨[], fun _ => none⟩, clients_list := ["client1"],
        current_mode := "idle", client_yellow_states := fun _ => false,
        client_last_press := fun _ => 0,
        connected_clients := [("client1", 5)] } "client1" 20 = false ∧
    is_client_connected
      (handle_client_heartbeat
        { gpio := ⟨[], fun _ => none⟩, clients_list := ["client1"],
          current_mode := "idle", client_yellow_states := fun _ => false,
          client_last_press := fun _ => 0,
          connected_clients := [("client1", 5)] } "client1" 20).1
      "client1" 20 = true := by
  refine ⟨⟨?_, ?_⟩, ?_, ?_⟩
  · rfl
  · norm_num [CLIENT_TIMEOUT]
  · exact (is_client_connected_spec _ "client1" 20).2.1 5 rfl
      (by norm_num [CLIENT_TIMEOUT])
  · exact (is_client_connected_spec _ "client1" 20).2.2 20

/-- C7: publishing while the session is not connected is skipped rather than
raising: for any topic and any outcome of the fallible library calls, the
call returns normally (never `.error`) and hands nothing to the transport. -/
theorem mqtt_publish_not_connected_skips (m : MQTTState) (topic : String)
    (sendResult reconnectResult : Except String Unit)
    (h : mqtt_is_connected m = false) :
    ∃ m', mqtt_publish m topic sendResult reconnectResult =
      Except.ok (m', []) := by
  unfold mqtt_is_connected at h
  unfold mqtt_publish
  rw [h]
  by_cases h2 : (m.mqtt_connected && !m.transport_connected) = true
  · rw [if_pos h2]
    cases reconnectResult with
    | ok u => exact ⟨m, rfl⟩
    | error e => exact ⟨{ m with mqtt_connected := false }, rfl⟩
  · rw [if_neg h2]
    exact ⟨m, rfl⟩

/-- Closed witness for `mqtt_publish_not_connected_skips`: a disconnected
manager skips the publish even when a reconnect attempt raises. -/
theorem mqtt_publish_not_connected_skips_witness :
    mqtt_is_connected ⟨true, false⟩ = false ∧
    ∃ m', mqtt_publish ⟨true, false⟩ "led-director/server/state/leds/red"
      (Except.ok ()) (Except.error "boom") = Except.ok (m', []) :=
  ⟨rfl, mqtt_publish_not_connected_skips ⟨true, false⟩
    "led-director/server/state/leds/red" (Except.ok ()) (Except.error "boom")
    rfl⟩

/-- C5: for a configured LED name, two successive `set_led` calls with the
same target state perform exactly one hardware write when the cache differed:
the first call writes the pin, caches the state and returns `true`; the
second call short-circuits, writes nothing and returns `false`. -/
theorem set_led_twice_single_write (g : GPIOState) (color : String)
    (state : Bool) (pin : Nat)
    (hpin : g.led_pins.lookup color = some pin)
    (hdiff : g.led_states color ≠ some state) :
    (set_led g color state).2.1 = true ∧
    (set_led g color state).2.2 = [(pin, state)] ∧
    (set_led g color state).1.led_states color = some state ∧
    set_led (set_led g color state).1 color state =
      ((set_led g color state).1, false, []) := by
  have h1 : set_led g color state =
      ({ g with led_states := updMap g.led_states color (some state) },
       true, [(pin, state)]) := by
    unfold set_led
    rw [hpin]
    simp [if_neg hdiff]
  refine ⟨by rw [h1], by rw [h1], ?_, ?_⟩
  · rw [h1]
    simp [updMap]
  · rw [h1]
    unfold set_led
    simp [hpin, updMap]

/-- Closed witness for `set_led_twice_single_write` on a one-LED
configuration. -/
theorem set_led_twice_single_write_witness :
    ((GPIOState.mk [("red", 17)] fun _ => some false).led_pins.lookup "red" =
        some 17 ∧
      (GPIOState.mk [("red", 17)] fun _ => some false).led_states "red" ≠
        some true) ∧
    (set_led (GPIOState.mk [("red", 17)] fun _ => some false) "red"
        true).2.1 = true ∧
    (set_led (GPIOState.mk [("red", 17)] fun _ => some false) "red"
        true).2.2 = [(17, true)] ∧
    (set_led (GPIOState.mk [("red", 17)] fun _ => some false) "red"
        true).1.led_states "red" = some true ∧
    set_led (set_led (GPIOState.mk [("red", 17)] fun _ => some false) "red"
        true).1 "red" true =
      ((set_led (GPIOState.mk [("red", 17)] fun _ => some false) "red"
        true).1, false, []) :=
  ⟨⟨rfl, by simp⟩,
   set_led_twice_single_write (GPIOState.mk [("red", 17)] fun _ => some false)
     "red" true 17 rfl (by simp)⟩

/-- C6 counterexample: a heartbeat from the unknown peer `"rogue"` (not in
the configured roster) at time 5 makes the server record a presence-table
entry for `"rogue"`, so an unknown-peer heartbeat is *not* free of state
changes. -/
theorem heartbeat_unknown_peer_adds_entry :
    ("rogue" ∉ (["client1", "client2", "client3"] : List String)) ∧
    (handle_client_heartbeat
        { gpio := ⟨[], fun _ => none⟩
          clients_list := ["client1", "client2", "client3"]
          current_mode := "idle"
          client_yellow_states := fun _ => false
          client_last_press := fun _ => 0
          connected_clients := [] } "rogue" 5).1.connected_clients.lookup
      "rogue" = some 5 ∧
    is_client_connected
      (handle_client_heartbeat
        { gpio := ⟨[], fun _ => none⟩
          clients_list := ["client1", "client2", "client3"]
          current_mode := "idle"
          client_yellow_states := fun _ => false
          client_last_press := fun _ => 0
          connected_clients := [] } "rogue" 5).1 "rogue" 5 = true := by
  refine ⟨by decide, rfl, ?_⟩
  unfold is_client_connected handle_client_heartbeat
  norm_num [updAssoc, CLIENT_TIMEOUT, List.lookup]

/-- C6 amended: a yellow-button message from an unknown peer is ignored
outright (identical state, no writes, no publish, no exception); an
unknown-peer heartbeat likewise publishes nothing and leaves every LED and
yellow state unchanged, but it does insert a presence-table entry for the
unknown identifier. -/
theorem unknown_peer_handling (s : ServerState) (client_id : String)
    (now : ℚ) (h : client_id ∉ s.clients_list) :
    handle_client_yellow_press s client_id now = (s, [], []) ∧
    (handle_client_heartbeat s client_id now).2 = [] ∧
    (handle_client_heartbeat s client_id now).1.gpio = s.gpio ∧
    (handle_client_heartbeat s client_id now).1.client_yellow_states =
      s.client_yellow_states ∧
    (handle_client_heartbeat s client_id now).1.connected_clients =
      updAssoc s.connected_clients client_id now := by
  refine ⟨?_, rfl, rfl, rfl, rfl⟩
  unfold handle_client_yellow_press
  rw [if_pos h]

/-- Closed witness for `unknown_peer_handling` at the unknown peer
`"rogue"`. -/
theorem unknown_peer_handling_witness :
    ("rogue" ∉
      ({ gpio := ⟨[], fun _ => none⟩
         clients_list := ["client1", "client2", "client3"]
         current_mode := "idle"
         client_yellow_states := fun _ => false
         client_last_press := fun _ => 0
         connected_clients := [] } : ServerState).clients_list) ∧
    handle_client_yellow_press
      { gpio := ⟨[], fun _ => none⟩
        clients_list := ["client1", "client2", "client3"]
        current_mode := "idle"
        client_yellow_states := fun _ => false
        client_last_press := fun _ => 0
        connected_clients := [] } "rogue" 7 =
      ({ gpio := ⟨[], fun _ => none⟩
         clients_list := ["client1", "client2", "client3"]
         current_mode := "idle"
         client_yellow_states := fun _ => false
         client_last_press := fun _ => 0
         connected_clients := [] }, [], []) :=
  ⟨by decide,
   (unknown_peer_handling _ "rogue" 7 (by decide)).1⟩

/-- C4: while the server is in `idle` (or `green_active`) mode, processing a
peer yellow-button press changes no LED state (GPIO cache untouched, no
hardware write), changes no per-client yellow state, and publishes no
message. -/
theorem idle_mode_ignores_yellow_press (s : ServerState) (client_id : String)
    (now : ℚ) (h : s.current_mode = "idle" ∨ s.current_mode = "green_active") :
    (handle_client_yellow_press s client_id now).1.gpio = s.gpio ∧
    (handle_client_yellow_press s client_id now).1.client_yellow_states =
      s.client_yellow_states ∧
    (handle_client_yellow_press s client_id now).2.1 = [] ∧
    (handle_client_yellow_press s client_id now).2.2 = [] := by
  have hmode : s.current_mode ≠ "red_active" := by
    rcases h with h | h <;> rw [h] <;> decide
  unfold handle_client_yellow_press
  split_ifs with h1 h2 <;>
    first
      | exact ⟨rfl, rfl, rfl, rfl⟩
      | (dsimp only; rw [if_neg hmode]; exact ⟨rfl, rfl, rfl, rfl⟩)

/-- Closed witness for `idle_mode_ignores_yellow_press`: an idle server with
a known client drops the press without any effect. -/
theorem idle_mode_ignores_yellow_press_witness :
    (exampleServerIdle.current_mode = "idle" ∨
      exampleServerIdle.current_mode = "green_active") ∧
    (handle_client_yellow_press exampleServerIdle "client1" 1).1.gpio =
      exampleServerIdle.gpio ∧
    (handle_client_yellow_press exampleServerIdle "client1" 1).2.1 = [] ∧
    (handle_client_yellow_press exampleServerIdle "client1" 1).2.2 = [] := by
  refine ⟨Or.inl rfl, ?_, ?_, ?_⟩
  · exact (idle_mode_ignores_yellow_press exampleServerIdle "client1" 1
      (Or.inl rfl)).1
  · exact (idle_mode_ignores_yellow_press exampleServerIdle "client1" 1
      (Or.inl rfl)).2.2.1
  · exact (idle_mode_ignores_yellow_press exampleServerIdle "client1" 1
      (Or.inl rfl)).2.2.2

/-- C1: on every MQTT (re)connect, `on_mqtt_connected` first reissues the
role-specific subscriptions and then republishes, retained, the current
cached state of each configured LED; the republished LED names equal the
configured LED name list, each exactly once. -/
theorem on_connected_republishes_all_leds (role : Role) (client_id : String)
    (g : GPIOState) (hnodup : (g.led_pins.map Prod.fst).Nodup) :
    on_mqtt_connected role client_id g =
      (setup_mqtt_subscriptions role client_id).map ConnAction.sub ++
        (republish_led_states role client_id g).map ConnAction.pub ∧
    (republish_led_states role client_id g).map PubMsg.color =
      g.led_pins.map Prod.fst ∧
    (∀ m ∈ republish_led_states role client_id g,
      m.retain = true ∧ m.state = get_led_state g m.color) ∧
    ((republish_led_states role client_id g).map PubMsg.color).Nodup := by
  have hcolors : (republish_led_states role client_id g).map PubMsg.color =
      g.led_pins.map Prod.fst := by
    unfold republish_led_states
    rw [List.map_map]
    rfl
  refine ⟨rfl, hcolors, ?_, ?_⟩
  · intro m hm
    unfold republish_led_states at hm
    rw [List.mem_map] at hm
    obtain ⟨p, hp, rfl⟩ := hm
    exact ⟨rfl, rfl⟩
  · rw [hcolors]
    exact hnodup

/-- Closed witness for `on_connected_republishes_all_leds` on a three-LED
server configuration. -/
theorem on_connected_republishes_all_leds_witness :
    (exampleGpio.led_pins.map Prod.fst).Nodup ∧
    (republish_led_states Role.server "server" exampleGpio).map
        PubMsg.color = exampleGpio.led_pins.map Prod.fst ∧
    ((republish_led_states Role.server "server" exampleGpio).map
        PubMsg.color).Nodup :=
  ⟨by decide,
   (on_connected_republishes_all_leds Role.server "server" exampleGpio
     (by decide)).2.1,
   (on_connected_republishes_all_leds Role.server "server" exampleGpio
     (by decide)).2.2.2⟩

/-- The debounce interval is positive. -/
theorem DEBOUNCE_pos : (0 : ℚ) < DEBOUNCE := by norm_num [DEBOUNCE]

/-- Neither detection path ever decreases a button's last-accepted-press
timestamp. -/
theorem stepEdge_last_press_mono (s : ButtonState) (e : EdgeEvent)
    (c : String) :
    s.last_button_press c ≤ (stepEdge s e).1.last_button_press c := by
  cases e with
  | interrupt color t =>
      simp only [stepEdge]
      unfold button_callback
      by_cases h : t - s.last_button_press color < DEBOUNCE
      · rw [if_pos h]
      · rw [if_neg h]
        dsimp only
        unfold updMap
        by_cases hc : c = color
        · subst hc
          rw [if_pos rfl]
          have h1 := not_lt.mp h
          have h2 := DEBOUNCE_pos
          linarith
        · rw [if_neg hc]
  | pollSample color t level =>
      simp only [stepEdge]
      unfold poll_visit
      by_cases h1 : (s.button_states color == true && level == false) = true
      · rw [if_pos h1]
        by_cases h2 : DEBOUNCE ≤ t - s.last_button_press color
        · rw [if_pos h2]
          dsimp only
          unfold updMap
          by_cases hc : c = color
          · subst hc
            rw [if_pos rfl]
            have h3 := DEBOUNCE_pos
            linarith
          · rw [if_neg hc]
        · rw [if_neg h2]
      · rw [if_neg h1]

/-- If a step fires an accepted event `(c, t)`, then `t` is at least one
debounce interval after the button's previous accepted press, and the new
state records `t` as the last accepted press for `c`. -/
theorem stepEdge_fired (s : ButtonState) (e : EdgeEvent) (c : String) (t : ℚ)
    (h : (stepEdge s e).2 = some (c, t)) :
    s.last_button_press c + DEBOUNCE ≤ t ∧
    (stepEdge s e).1.last_button_press c = t := by
  cases e with
  | interrupt color t0 =>
      simp only [stepEdge] at h ⊢
      unfold button_callback at h ⊢
      by_cases hlt : t0 - s.last_button_press color < DEBOUNCE
      · rw [if_pos hlt] at h
        exact absurd h (by simp)
      · rw [if_neg hlt] at h ⊢
        dsimp only at h ⊢
        obtain ⟨rfl, rfl⟩ : color = c ∧ t0 = t := by
          simpa [Prod.ext_iff] using h
        refine ⟨by have := not_lt.mp hlt; linarith, ?_⟩
        unfold updMap
        rw [if_pos rfl]
  | pollSample color t0 level =>
      simp only [stepEdge] at h ⊢
      unfold poll_visit at h ⊢
      by_cases h1 : (s.button_states color == true && level == false) = true
      · rw [if_pos h1] at h ⊢
        by_cases h2 : DEBOUNCE ≤ t0 - s.last_button_press color
        · rw [if_pos h2] at h ⊢
          dsimp only at h ⊢
          obtain ⟨rfl, rfl⟩ : color = c ∧ t0 = t := by
            simpa [Prod.ext_iff] using h
          refine ⟨by linarith, ?_⟩
          unfold updMap
          rw [if_pos rfl]
        · rw [if_neg h2] at h
          exact absurd h (by simp)
      · rw [if_neg h1] at h
        exact absurd h (by simp)

/-- Every event accepted during a run for button `c` happens at least one
debounce interval after the state's recorded last accepted press for `c`. -/
theorem runEdges_ge_last_press (es : List EdgeEvent) (s : ButtonState)
    (c : String) :
    ∀ p ∈ runEdges s es, p.1 = c →
      s.last_button_press c + DEBOUNCE ≤ p.2 := by
  induction es generalizing s with
  | nil =>
      intro p hp
      simp [runEdges] at hp
  | cons e es ih =>
      intro p hp hpc
      rw [show runEdges s (e :: es) =
            (match stepEdge s e with
             | (s', some ev) => ev :: runEdges s' es
             | (s', none) => runEdges s' es) from rfl] at hp
      rcases hstep : stepEdge s e with ⟨s', ev⟩
      rw [hstep] at hp
      have hmono : s.last_button_press c ≤ s'.last_button_press c := by
        have hm := stepEdge_last_press_mono s e c
        rwa [hstep] at hm
      cases ev with
      | none =>
          dsimp only at hp
          have hrec := ih s' p hp hpc
          linarith
      | some q =>
          dsimp only at hp
          rcases List.mem_cons.mp hp with hq | hmem
          · have hpq : p = (c, p.2) := by
              rw [Prod.ext_iff]
              exact ⟨hpc, rfl⟩
            have hfired : (stepEdge s e).2 = some (c, p.2) := by
              rw [hstep]
              dsimp only
              rw [← hq, ← hpq]
            exact (stepEdge_fired s e c p.2 hfired).1
          · have hrec := ih s' p hmem hpc
            linarith

/-- The accepted events of one button are pairwise separated by at least one
debounce interval. -/
theorem acceptedFor_pairwise_separated (color : String) (es : List EdgeEvent)
    (s : ButtonState) :
    (acceptedFor color s es).Pairwise (fun a b => a.2 + DEBOUNCE ≤ b.2) := by
  induction es generalizing s with
  | nil =>
      unfold acceptedFor runEdges
      simp
  | cons e es ih =>
      have hrun : runEdges s (e :: es) =
          (match stepEdge s e with
           | (s', some ev) => ev :: runEdges s' es
           | (s', none) => runEdges s' es) := rfl
      rcases hstep : stepEdge s e with ⟨s', ev⟩
      unfold acceptedFor
      rw [hrun, hstep]
      cases ev with
      | none =>
          dsimp only
          exact ih s'
      | some q =>
          dsimp only
          rw [List.filter_cons]
          by_cases hq : (q.1 == color) = true
          · rw [if_pos hq]
            refine List.Pairwise.cons ?_ (ih s')
            intro b hb
            have hbmem := List.mem_filter.mp hb
            have hbc : b.1 = color := by
              have hb2 := hbmem.2
              exact beq_iff_eq.mp hb2
            have hge := runEdges_ge_last_press es s' color b hbmem.1 hbc
            have hqc : q.1 = color := beq_iff_eq.mp hq
            have hfired : (stepEdge s e).2 = some (color, q.2) := by
              rw [hstep]
              dsimp only
              rw [← hqc]
            have hlast := (stepEdge_fired s e color q.2 hfired).2
            rw [hstep] at hlast
            dsimp only at hlast
            rw [← hlast]
            exact hge
          · rw [if_neg hq]
            exact ih s'

/-- C2: for every logical button and every sequence of detected edges
(interrupt, polling, or a mix), the accepted button events for that button
are pairwise at least 0.2 s apart, and an edge whose timestamp is less than
0.2 s after the button's last accepted press is discarded by both detection
paths without invoking the button-press callback. -/
theorem debounce_no_close_events (s : ButtonState) (es : List EdgeEvent)
    (color : String) :
    (acceptedFor color s es).Pairwise (fun a b => a.2 + DEBOUNCE ≤ b.2) ∧
    (∀ c t, t - s.last_button_press c < DEBOUNCE →
      button_callback s c t = (s, none)) ∧
    (∀ c t level, t - s.last_button_press c < DEBOUNCE →
      (poll_visit s c t level).2 = none) := by
  refine ⟨acceptedFor_pairwise_separated color es s, ?_, ?_⟩
  · intro c t h
    unfold button_callback
    rw [if_pos h]
  · intro c t level h
    unfold poll_visit
    by_cases h1 : (s.button_states c == true && level == false) = true
    · rw [if_pos h1]
      rw [if_neg (not_le.mpr h)]
    · rw [if_neg h1]

/-- Closed witness for `debounce_no_close_events`: from a fresh state, a mix
of interrupt and poll edges on the `"red"` button yields pairwise separated
accepted events, and both paths drop an edge 0.1 s after the last accepted
press. -/
theorem debounce_no_close_events_witness :
    ((0.1 : ℚ) -
        (ButtonState.mk (fun _ => 0) fun _ => true).last_button_press "red" <
      DEBOUNCE) ∧
    (acceptedFor "red" (ButtonState.mk (fun _ => 0) fun _ => true)
      [EdgeEvent.interrupt "red" 1, EdgeEvent.pollSample "red" 1.1 false,
       EdgeEvent.interrupt "red" 1.3]).Pairwise
        (fun a b => a.2 + DEBOUNCE ≤ b.2) ∧
    button_callback (ButtonState.mk (fun _ => 0) fun _ => true) "red" 0.1 =
      (ButtonState.mk (fun _ => 0) fun _ => true, none) ∧
    (poll_visit (ButtonState.mk (fun _ => 0) fun _ => true) "red" 0.1
      false).2 = none := by
  have h : (0.1 : ℚ) -
      (ButtonState.mk (fun _ => 0) fun _ => true).last_button_press "red" <
      DEBOUNCE := by norm_num [DEBOUNCE]
  refine ⟨h, ?_, ?_, ?_⟩
  · exact (debounce_no_close_events (ButtonState.mk (fun _ => 0) fun _ => true)
      [EdgeEvent.interrupt "red" 1, EdgeEvent.pollSample "red" 1.1 false,
       EdgeEvent.interrupt "red" 1.3] "red").1
  · exact (debounce_no_close_events (ButtonState.mk (fun _ => 0) fun _ => true)
      [] "red").2.1 "red" 0.1 h
  · exact (debounce_no_close_events (ButtonState.mk (fun _ => 0) fun _ => true)
      [] "red").2.2 "red" 0.1 false h

/-- In `red_active` mode, an accepted yellow press from a known client with
yellow state `b` (and the matching LED cache) toggles to `!b`, writes the
pin, and publishes the retained state message followed by exactly one
command to that client. -/
theorem handle_yellow_press_red_active_eq (s : ServerState)
    (client_id : String) (now : ℚ) (pin : Nat) (b : Bool)
    (hmode : s.current_mode = "red_active")
    (hmem : client_id ∈ s.clients_list)
    (hcool : BUTTON_COOLDOWN ≤ now - s.client_last_press client_id)
    (hb : s.client_yellow_states client_id = b)
    (hpin : s.gpio.led_pins.lookup ("yellow_" ++ client_id) = some pin)
    (hcache : s.gpio.led_states ("yellow_" ++ client_id) = some b) :
    handle_client_yellow_press s client_id now =
      ({ s with
          client_last_press := updMap s.client_last_press client_id now,
          client_yellow_states :=
            updMap s.client_yellow_states client_id (!b),
          gpio := { led_pins := s.gpio.led_pins,
                    led_states := updMap s.gpio.led_states
                      ("yellow_" ++ client_id) (some (!b)) } },
       [(pin, !b)],
       [publish_led_state Role.server "server" ("yellow_" ++ client_id) (!b),
        { color := "yellow", topic := client_cmd_yellow_topic client_id,
          state := !b, retain := false }]) := by
  have hnotnot : ¬(client_id ∉ s.clients_list) := not_not_intro hmem
  have hnocool : ¬(now - s.client_last_press client_id < BUTTON_COOLDOWN) :=
    not_lt.mpr hcool
  unfold handle_client_yellow_press base_set_led set_led
  rw [if_neg hnotnot, if_neg hnocool]
  rw [hmode, if_pos rfl]
  rw [hb]
  dsimp only
  rw [hpin]
  simp only [Option.isSome_some, if_true]
  rw [hcache]
  cases b <;> simp

/-- C3: a server in `red_active` mode, receiving a yellow press from a known
client (yellow currently off) outside the cooldown window, toggles that
client's yellow state ON and publishes exactly one (non-retained) command,
addressed to that client; a second press within 0.3 s of the first is
dropped entirely (no toggle, no write, no message); a second press at or
after the cooldown toggles the state back OFF with exactly one OFF
command. -/
theorem red_active_yellow_toggle (s : ServerState) (client_id : String)
    (now : ℚ) (pin : Nat)
    (hmode : s.current_mode = "red_active")
    (hmem : client_id ∈ s.clients_list)
    (hcool : BUTTON_COOLDOWN ≤ now - s.client_last_press client_id)
    (hoff : s.client_yellow_states client_id = false)
    (hpin : s.gpio.led_pins.lookup ("yellow_" ++ client_id) = some pin)
    (hcache : s.gpio.led_states ("yellow_" ++ client_id) = some false) :
    (handle_client_yellow_press s client_id now).1.client_yellow_states
        client_id = true ∧
    (handle_client_yellow_press s client_id now).2.2 =
      [publish_led_state Role.server "server" ("yellow_" ++ client_id) true,
       { color := "yellow", topic := client_cmd_yellow_topic client_id,
         state := true, retain := false }] ∧
    ((handle_client_yellow_press s client_id now).2.2.filter
        (fun m => m.retain == false)) =
      [{ color := "yellow", topic := client_cmd_yellow_topic client_id,
         state := true, retain := false }] ∧
    (∀ now2, now2 - now < BUTTON_COOLDOWN →
      handle_client_yellow_press
          (handle_client_yellow_press s client_id now).1 client_id now2 =
        ((handle_client_yellow_press s client_id now).1, [], [])) ∧
    (∀ now2, BUTTON_COOLDOWN ≤ now2 - now →
      (handle_client_yellow_press
          (handle_client_yellow_press s client_id now).1 client_id
          now2).1.client_yellow_states client_id = false ∧
      ((handle_client_yellow_press
          (handle_client_yellow_press s client_id now).1 client_id
          now2).2.2.filter (fun m => m.retain == false)) =
        [{ color := "yellow", topic := client_cmd_yellow_topic client_id,
           state := false, retain := false }]) := by
  have hH := handle_yellow_press_red_active_eq s client_id now pin false
    hmode hmem hcool hoff hpin hcache
  simp only [Bool.not_false] at hH
  have hA1 : (handle_client_yellow_press s client_id
      now).1.client_yellow_states client_id = true := by
    rw [hH]
    simp [updMap]
  have hA2 : (handle_client_yellow_press s client_id now).1.current_mode =
      "red_active" := by
    rw [hH]
    exact hmode
  have hA3 : client_id ∈
      (handle_client_yellow_press s client_id now).1.clients_list := by
    rw [hH]
    exact hmem
  have hA4 : (handle_client_yellow_press s client_id
      now).1.client_last_press client_id = now := by
    rw [hH]
    simp [updMap]
  have hA5 : (handle_client_yellow_press s client_id
      now).1.gpio.led_pins.lookup ("yellow_" ++ client_id) = some pin := by
    rw [hH]
    exact hpin
  have hA6 : (handle_client_yellow_press s client_id
      now).1.gpio.led_states ("yellow_" ++ client_id) = some true := by
    rw [hH]
    simp [updMap]
  refine ⟨hA1, by rw [hH], by rw [hH]; rfl, ?_, ?_⟩
  · intro now2 h2
    have hA3' := hA3
    have hA4' := hA4
    generalize (handle_client_yellow_press s client_id now).1 = sA
      at hA3' hA4' ⊢
    unfold handle_client_yellow_press
    rw [if_neg (not_not_intro hA3'), hA4', if_pos h2]
  · intro now2 h2
    have hH2 := handle_yellow_press_red_active_eq
      (handle_client_yellow_press s client_id now).1 client_id now2 pin true
      hA2 hA3 (by rw [hA4]; exact h2) hA1 hA5 hA6
    simp only [Bool.not_true] at hH2
    constructor
    · rw [hH2]
      simp [updMap]
    · rw [hH2]
      rfl

/-- Closed witness for `red_active_yellow_toggle`: presses at t=1, t=1.1 and
t=1.4 on a one-client red-active server. -/
theorem red_active_yellow_toggle_witness :
    (exampleServerRed.current_mode = "red_active" ∧
     "client1" ∈ exampleServerRed.clients_list ∧
     BUTTON_COOLDOWN ≤ (1 : ℚ) - exampleServerRed.client_last_press "client1" ∧
     exampleServerRed.client_yellow_states "client1" = false ∧
     exampleServerRed.gpio.led_pins.lookup ("yellow_" ++ "client1") =
       some 22 ∧
     exampleServerRed.gpio.led_states ("yellow_" ++ "client1") = some false) ∧
    (handle_client_yellow_press exampleServerRed "client1"
      1).1.client_yellow_states "client1" = true ∧
    handle_client_yellow_press
        (handle_client_yellow_press exampleServerRed "client1" 1).1 "client1"
        (1.1 : ℚ) =
      ((handle_client_yellow_press exampleServerRed "client1" 1).1, [], []) ∧
    (handle_client_yellow_press
        (handle_client_yellow_press exampleServerRed "client1" 1).1 "client1"
        (1.4 : ℚ)).1.client_yellow_states "client1" = false := by
  have hcool : BUTTON_COOLDOWN ≤
      (1 : ℚ) - exampleServerRed.client_last_press "client1" := by
    norm_num [BUTTON_COOLDOWN, exampleServerRed]
  have hpin : exampleServerRed.gpio.led_pins.lookup ("yellow_" ++ "client1") =
      some 22 := by decide
  have hT := red_active_yellow_toggle exampleServerRed "client1" 1 22 rfl
    (by decide) hcool rfl hpin rfl
  exact ⟨⟨rfl, by decide, hcool, rfl, hpin, rfl⟩, hT.1,
    hT.2.2.2.1 1.1 (by norm_num [BUTTON_COOLDOWN]),
    (hT.2.2.2.2 1.4 (by norm_num [BUTTON_COOLDOWN])).1⟩

/-- A list is a prefix of itself followed by anything. -/
theorem isPreList_append_self (p r : List Char) :
    isPreList p (p ++ r) = true := by
  induction p with
  | nil => rfl
  | cons c cs ih => simp [isPreList, ih]

/-- Prefix testing is monotone in list extension on the right. -/
theorem isPreList_mono (p : List Char) :
    ∀ s t, isPreList p s = true → isPreList p (s ++ t) = true := by
  induction p with
  | nil => intro s t h; rfl
  | cons q qs ih =>
      intro s t h
      cases s with
      | nil => exact absurd h (by simp [isPreList])
      | cons c cs =>
          rw [show isPreList (q :: qs) (c :: cs) =
              (q == c && isPreList qs cs) from rfl] at h
          cases hqc : (q == c) with
          | false =>
              rw [hqc] at h
              exact absurd h (by simp)
          | true =>
              rw [hqc, Bool.true_and] at h
              show (q == c && isPreList qs (cs ++ t)) = true
              rw [hqc, ih cs t h]
              rfl

/-- Appending anything to a `led-director/`-rooted string keeps it rooted. -/
theorem ldRooted_append (a b : String) (h : ledDirectorRooted a) :
    ledDirectorRooted (a ++ b) := by
  unfold ledDirectorRooted at h ⊢
  rw [String.data_append]
  exact isPreList_mono _ _ _ h

/-- `removeOccAux` is the identity on strings without an occurrence of the
pattern (given enough fuel). -/
theorem removeOccAux_no_occ (pat : List Char) :
    ∀ n s, occursList pat s = false → s.length ≤ n →
      removeOccAux pat n s = s := by
  intro n
  induction n with
  | zero =>
      intro s hocc hlen
      have hnil : s = [] := List.length_eq_zero.mp (Nat.le_zero.mp hlen)
      subst hnil
      rfl
  | succ n ih =>
      intro s hocc hlen
      cases s with
      | nil => rfl
      | cons c cs =>
          rw [show occursList pat (c :: cs) =
              (isPreList pat (c :: cs) || occursList pat cs) from rfl] at hocc
          rcases Bool.or_eq_false_iff.mp hocc with ⟨h1, h2⟩
          rw [show removeOccAux pat (n + 1) (c :: cs) =
              if isPreList pat (c :: cs) then
                removeOccAux pat n (List.drop (pat.length - 1) cs)
              else c :: removeOccAux pat n cs from rfl]
          rw [if_neg (by simp [h1])]
          have hlen2 : cs.length ≤ n := by
            simp only [List.length_cons] at hlen
            omega
          rw [ih cs h2 hlen2]

/-- Removing a non-empty pattern from `pat ++ r` where `r` contains no
occurrence of the pattern yields `r`. -/
theorem removeOccList_self_append (pat r : List Char) (hne : pat ≠ [])
    (hocc : occursList pat r = false) :
    removeOccList pat (pat ++ r) = r := by
  cases pat with
  | nil => exact absurd rfl hne
  | cons p ps =>
      show removeOccAux (p :: ps) ((p :: ps) ++ r).length ((p :: ps) ++ r) = r
      rw [show ((p :: ps) ++ r) = p :: (ps ++ r) from rfl]
      rw [show (p :: (ps ++ r)).length = (ps ++ r).length + 1 from rfl]
      rw [show removeOccAux (p :: ps) ((ps ++ r).length + 1) (p :: (ps ++ r)) =
          if isPreList (p :: ps) (p :: (ps ++ r)) then
            removeOccAux (p :: ps) ((ps ++ r).length)
              (List.drop ((p :: ps).length - 1) (ps ++ r))
          else p :: removeOccAux (p :: ps) ((ps ++ r).length) (ps ++ r)
          from rfl]
      rw [if_pos (show isPreList (p :: ps) (p :: (ps ++ r)) = true from
        isPreList_append_self (p :: ps) r)]
      have hdrop : List.drop ((p :: ps).length - 1) (ps ++ r) = r := by
        rw [show (p :: ps).length - 1 = ps.length from by
          simp [List.length_cons]]
        exact List.drop_left ps r
      rw [hdrop]
      exact removeOccAux_no_occ (p :: ps) ((ps ++ r).length) r hocc
        (by simp [List.length_append])

/-- `"yellow_" ++ cid` starts with the yellow tag. -/
theorem startsYellow_tag (cid : String) :
    startsYellow ("yellow_" ++ cid) = true := by
  unfold startsYellow
  rw [String.data_append]
  exact isPreList_append_self yellowTag cid.data

/-- Stripping the yellow tag from `"yellow_" ++ cid` yields `cid` whenever
`cid` itself does not contain the tag. -/
theorem stripYellow_of_tag (cid : String)
    (h : occursList yellowTag cid.data = false) :
    stripYellow ("yellow_" ++ cid) = cid := by
  apply String.ext
  show removeOccList yellowTag ("yellow_" ++ cid).data = cid.data
  rw [String.data_append]
  exact removeOccList_self_append yellowTag cid.data (by decide) h

/-- C8 counterexample: the topics the code builds are rooted at
`led-director/`, not `director/`, and the server's per-client yellow LED
state is published at `led-director/server/state/leds/yellow/<id>`, not at
`.../state/leds/<name>` with the full LED name. -/
theorem topics_not_director_rooted :
    client_heartbeat_topic "client1" =
      "led-director/client/client1/heartbeat" ∧
    isPreList "director/".data (client_heartbeat_topic "client1").data =
      false ∧
    server_led_state_topic "yellow_client1" =
      "led-director/server/state/leds/yellow/client1" ∧
    server_led_state_topic "yellow_client1" ≠
      "director/server/state/leds/yellow_client1" ∧
    server_led_state_topic "yellow_client1" ≠
      "led-director/server/state/leds/yellow_client1" := by
  refine ⟨by decide, by decide, by decide, by decide, by decide⟩

/-- C8 amended: every topic the program publishes or subscribes on is rooted
at `led-director/` and follows the naming scheme (state, event, cmd,
heartbeat segments as specified), except that the server's per-client yellow
indicators are published at `led-director/server/state/leds/yellow/<id>`
(the `yellow_` tag stripped) instead of `.../state/leds/<name>`. -/
theorem topics_led_director_scheme :
    (∀ color, ledDirectorRooted (server_led_state_topic color)) ∧
    (∀ client_id color,
      ledDirectorRooted (client_led_state_topic client_id color)) ∧
    (∀ color, ledDirectorRooted (server_button_event_topic color)) ∧
    (∀ client_id color,
      ledDirectorRooted (client_button_event_topic client_id color)) ∧
    (∀ client_id, ledDirectorRooted (client_cmd_yellow_topic client_id)) ∧
    (∀ client_id subtopic,
      ledDirectorRooted (broadcast_topic client_id subtopic)) ∧
    (∀ client_id, ledDirectorRooted (client_heartbeat_topic client_id)) ∧
    (∀ t ∈ server_subscriptions, ledDirectorRooted t) ∧
    (∀ client_id, ∀ t ∈ client_subscriptions client_id,
      ledDirectorRooted t) ∧
    (∀ color, startsYellow color = false →
      server_led_state_topic color =
        "led-director/server/state/leds/" ++ color) ∧
    (∀ cid, occursList yellowTag cid.data = false →
      server_led_state_topic ("yellow_" ++ cid) =
        "led-director/server/state/leds/yellow/" ++ cid) := by
  refine ⟨?_, ?_, ?_, ?_, ?_, ?_, ?_, ?_, ?_, ?_, ?_⟩
  · intro color
    unfold server_led_state_topic
    by_cases h : startsYellow color = true
    · rw [if_pos h]
      exact ldRooted_append _ _ (by unfold ledDirectorRooted; decide)
    · rw [if_neg h]
      exact ldRooted_append _ _ (by unfold ledDirectorRooted; decide)
  · intro client_id color
    exact ldRooted_append _ _ (ldRooted_append _ _
      (ldRooted_append _ _ (by unfold ledDirectorRooted; decide)))
  · intro color
    exact ldRooted_append _ _ (by unfold ledDirectorRooted; decide)
  · intro client_id color
    exact ldRooted_append _ _ (ldRooted_append _ _
      (ldRooted_append _ _ (by unfold ledDirectorRooted; decide)))
  · intro client_id
    exact ldRooted_append _ _ (ldRooted_append _ _ (by unfold ledDirectorRooted; decide))
  · intro client_id subtopic
    exact ldRooted_append _ _ (ldRooted_append _ _
      (ldRooted_append _ _ (by unfold ledDirectorRooted; decide)))
  · intro client_id
    exact ldRooted_append _ _ (ldRooted_append _ _ (by unfold ledDirectorRooted; decide))
  · intro t ht
    rcases (by simpa [server_subscriptions] using ht : t =
        "led-director/client/+/event/buttons/yellow" ∨
        t = "led-director/client/+/heartbeat") with rfl | rfl <;>
      (unfold ledDirectorRooted; decide)
  · intro client_id t ht
    rcases (by simpa [client_subscriptions] using ht : t =
        "led-director/client/" ++ client_id ++ "/cmd/leds/+") with rfl
    exact ldRooted_append _ _ (ldRooted_append _ _ (by unfold ledDirectorRooted; decide))
  · intro color h
    unfold server_led_state_topic
    rw [if_neg (by simp [h])]
  · intro cid h
    unfold server_led_state_topic
    rw [if_pos (startsYellow_tag cid)]
    rw [stripYellow_of_tag cid h]

/-- Closed witness for `topics_led_director_scheme` at the LED names
`"red"` and `"yellow_client1"`. -/
theorem topics_led_director_scheme_witness :
    startsYellow "red" = false ∧
    occursList yellowTag "client1".data = false ∧
    server_led_state_topic "red" =
      "led-director/server/state/leds/" ++ "red" ∧
    server_led_state_topic ("yellow_" ++ "client1") =
      "led-director/server/state/leds/yellow/" ++ "client1" ∧
    ledDirectorRooted (client_heartbeat_topic "client1") :=
  ⟨by decide, by decide,
   topics_led_director_scheme.2.2.2.2.2.2.2.2.2.1 "red" (by decide),
   topics_led_director_scheme.2.2.2.2.2.2.2.2.2.2 "client1" (by decide),
   topics_led_director_scheme.2.2.2.2.2.2.1 "client1"⟩
